import Mathlib

/-!
Verification development for the catalog indexing and query engine of the
rkp-favourites Stremio addon.  The definitions below are a shallow embedding
of `src/services/catalogService.js` (the `CatalogService` class): service
state is passed explicitly, JavaScript exceptions become `Except` /
`Option DataLoadError` values, and the file system is abstracted by a
`ParseOutcome` value describing what reading and parsing the backing file
produced.
-/

deriving instance DecidableEq for Except

namespace Rkp

/-- One media entry of a catalog (`catalog_items` element).  Every field is
optional in the JSON source; `none` models an absent field and `some ""`
models a present-but-empty string (falsy in JavaScript). -/
structure Item where
  id : Option String
  name : Option String
  poster : Option String
  banner : Option String
  description : Option String
  releaseInfo : Option String
  runtime : Option String
  imdbRating : Option String
  genres : Option (List String)
deriving Repr, DecidableEq

/-- One named collection from the `catalogs` array of the JSON document. -/
structure Catalog where
  catalog_type : Option String
  catalog_name : Option String
  catalog_items : Option (List Item)
deriving Repr, DecidableEq

/-- The deserialized top-level document, after the shape validation
`Array.isArray(data.catalogs)` has succeeded. -/
structure CatalogDocument where
  catalogs : List Catalog
deriving Repr, DecidableEq

/-- The `DataLoadError` class of `src/utils/errors.js`; only the message is
relevant to the properties proved here. -/
structure DataLoadError where
  message : String
deriving Repr, DecidableEq

/-- JavaScript truthiness of an optional string field: present and
non-empty. -/
def truthy : Option String → Bool
  | some s => s ≠ ""
  | none => false

/-- JavaScript `o || d` for an optional string field `o` and default `d`. -/
def jsOr (o : Option String) (d : String) : String :=
  match o with
  | some s => if s = "" then d else s
  | none => d

/-- The mutable fields of the `CatalogService` singleton that the claims
observe: `this.catalogData`, `this.catalogMap` and `this.initialized`.
The `this.dataPath` field only feeds the abstracted file system and is not
modelled.  The ES `Map` is modelled as an insertion-ordered association
list. -/
structure ServiceState where
  catalogData : Option CatalogDocument
  catalogMap : List (String × Catalog)
  inited : Bool
deriving Repr, DecidableEq

/-- The state built by the `CatalogService` constructor. -/
def initState : ServiceState := ⟨none, [], false⟩

/-- `Map.prototype.set`: update in place if the key exists, else append. -/
def mapSet (m : List (String × Catalog)) (k : String) (v : Catalog) :
    List (String × Catalog) :=
  if m.any (fun p => p.1 = k) then
    m.map (fun p => if p.1 = k then (k, v) else p)
  else
    m ++ [(k, v)]

/-- `Map.prototype.get` (returning `undefined` as `none`). -/
def mapGet (m : List (String × Catalog)) (k : String) : Option Catalog :=
  (m.find? (fun p => p.1 = k)).map (fun p => p.2)

/-- `Map.prototype.has`. -/
def mapHas (m : List (String × Catalog)) (k : String) : Bool :=
  m.any (fun p => p.1 = k)

/-- The composite lookup key `` `${catalog_type}:${catalog_name}` ``. -/
def catalogKey (c : Catalog) : String :=
  c.catalog_type.getD "" ++ ":" ++ c.catalog_name.getD ""

/-- `CatalogService._buildCatalogMap`: clear the map, then insert every
catalog that has both `catalog_type` and `catalog_name` truthy, keyed by
`type:name`, in document order. -/
def buildCatalogMap (st : ServiceState) : ServiceState :=
  match st.catalogData with
  | none => ⟨st.catalogData, [], st.inited⟩
  | some d =>
      let m := d.catalogs.foldl
        (fun m c =>
          if truthy c.catalog_type && truthy c.catalog_name then
            mapSet m (catalogKey c) c
          else m) []
      ⟨st.catalogData, m, st.inited⟩

/-- What reading and parsing the backing file produced; this abstracts
`fs.readFileSync` + `JSON.parse` + the top-level shape validation of
`CatalogService._loadDataFromFile`. -/
inductive ParseOutcome where
  /-- `fs.existsSync` failed, `fs.readFileSync` threw, or `JSON.parse`
  threw: the source is unreadable or malformed. -/
  | readError : ParseOutcome
  /-- Parsing succeeded but `!data || !Array.isArray(data.catalogs)`:
  wrong top-level shape. -/
  | badShape : ParseOutcome
  /-- Parsing and shape validation succeeded with this document. -/
  | good : CatalogDocument → ParseOutcome
deriving Repr, DecidableEq

/-- `CatalogService._loadDataFromFile`: on success install the document,
rebuild the map and set `initialized`; on any failure throw a
`DataLoadError` (second component `some e`) leaving the state untouched. -/
def loadDataFromFile (st : ServiceState) (p : ParseOutcome) :
    ServiceState × Option DataLoadError :=
  match p with
  | .readError => (st, some ⟨"Catalog data file read or parse failed"⟩)
  | .badShape =>
      (st, some ⟨"Invalid catalog data format: expected { catalogs: [...] }"⟩)
  | .good d =>
      let st := { st with catalogData := some d }
      let st := buildCatalogMap st
      ({ st with inited := true }, none)

/-- `CatalogService.loadCatalogData`: resolve the path (abstracted — `none`
means no path-resolution strategy found the file) and delegate to
`_loadDataFromFile`; any error is caught, logged and rethrown wrapped in a
`DataLoadError`.  The same method is what an external reload trigger would
call again, so it also models `reload`. -/
def loadCatalogData (st : ServiceState) (src : Option ParseOutcome) :
    ServiceState × Option DataLoadError :=
  match src with
  | none => (st, some ⟨"Catalog data file not found"⟩)
  | some p =>
      match loadDataFromFile st p with
      | (st', none) => (st', none)
      | (st', some e) => (st', some ⟨"Failed to load catalog data: " ++ e.message⟩)

/-- Result row of `getAllCatalogs`: the projected
`{ catalog_name, catalog_type }` object. -/
structure CatalogSummary where
  catalog_name : Option String
  catalog_type : Option String
deriving Repr, DecidableEq

/-- `CatalogService.getAllCatalogs`: throws `DataLoadError` when
`!this.initialized || !this.catalogData`, else projects every catalog of
the raw document. -/
def getAllCatalogs (st : ServiceState) :
    Except DataLoadError (List CatalogSummary) :=
  match st.catalogData, st.inited with
  | some d, true =>
      .ok (d.catalogs.map (fun c => ⟨c.catalog_name, c.catalog_type⟩))
  | _, _ => .error ⟨"Catalog data not initialized"⟩

/-- `Set.prototype.add` on an insertion-ordered string set. -/
def addType (acc : List String) (t : String) : List String :=
  if acc.contains t then acc else acc ++ [t]

/-- `CatalogService.getSupportedTypes`: the distinct truthy `catalog_type`
values in first-insertion order (a JS `Set` converted with
`Array.from`). -/
def getSupportedTypes (st : ServiceState) :
    Except DataLoadError (List String) :=
  match st.catalogData, st.inited with
  | some d, true =>
      .ok (d.catalogs.foldl
        (fun acc c => if truthy c.catalog_type then
            addType acc (c.catalog_type.getD "") else acc) [])
  | _, _ => .error ⟨"Catalog data not initialized"⟩

/-- The client-facing meta object produced by
`CatalogService._transformToStremioMeta`; optional fields are omitted
(`none`) exactly when the source field was absent or falsy. -/
structure StremioMeta where
  id : String
  type : String
  name : String
  poster : Option String
  background : Option String
  description : Option String
  releaseInfo : Option String
  runtime : Option String
  imdbRating : Option String
deriving Repr, DecidableEq

/-- `CatalogService._transformToStremioMeta`. -/
def transformToStremioMeta (item : Item) (type : String) : StremioMeta :=
  ⟨jsOr item.id "",
   type,
   jsOr item.name "Unknown",
   if truthy item.poster then item.poster else none,
   if truthy item.banner then item.banner else none,
   if truthy item.description then item.description else none,
   if truthy item.releaseInfo then item.releaseInfo else none,
   if truthy item.runtime then item.runtime else none,
   if truthy item.imdbRating then item.imdbRating else none⟩

/-- `s.trim().toLowerCase()` as used by the genre filter (modelled for the
ASCII range: strip leading/trailing whitespace, lowercase every
character). -/
def normalizeGenre (s : String) : String :=
  String.mk
    ((((s.data.dropWhile Char.isWhitespace).reverse.dropWhile
        Char.isWhitespace).reverse).map Char.toLower)

/-- The item predicate of the genre filter in
`CatalogService.getCatalogItems`: some truthy entry of `item.genres`
normalizes to `genreLower` (`genreLower` is the already-normalized
filter). -/
def genreMatches (genreLower : String) (item : Item) : Bool :=
  match item.genres with
  | none => false
  | some gs => gs.any (fun g => g ≠ "" && normalizeGenre g = genreLower)

/-- The `{ skip, limit }` pagination object. `none` models an absent or
non-numeric (`undefined`/`NaN`) value. -/
structure Pagination where
  skip : Option Int
  limit : Option Int
deriving Repr, DecidableEq

/-- The options argument of `getCatalogItems`: possibly a nested
`pagination` object plus a `genre`, or the legacy flat `{ skip, limit }`
shape.  `pagination = none` models an options object whose `pagination`
field is absent, falsy or not an object. -/
structure QueryOptions where
  pagination : Option Pagination
  genre : Option String
  skip : Option Int
  limit : Option Int
deriving Repr, DecidableEq

/-- The options-extraction block of `getCatalogItems`: with a nested
`pagination` object use it, else treat the whole options object as the
pagination (legacy shape). -/
def effectivePagination (options : QueryOptions) : Pagination :=
  match options.pagination with
  | some p => p
  | none => ⟨options.skip, options.limit⟩

/-- The genre extracted by the options-extraction block:
`options.genre || null` in the nested shape, `null` in the legacy
shape.  A present-but-empty genre is falsy, hence `none`. -/
def effectiveGenre (options : QueryOptions) : Option String :=
  match options.pagination with
  | some _ => options.genre.bind (fun g => if g = "" then none else some g)
  | none => none

/-- The genre-filter block of `getCatalogItems` (a no-op when no genre was
extracted). -/
def filteredItems (items : List Item) (genre : Option String) : List Item :=
  match genre with
  | some g => items.filter (genreMatches (normalizeGenre g))
  | none => items

/-- The pagination block of `getCatalogItems`: `skip = pagination.skip || 0`
then `if (skip > 0) slice(skip)`, then `if (limit && limit > 0)
slice(0, limit)`. -/
def applyPagination (p : Pagination) (items : List StremioMeta) :
    List StremioMeta :=
  let skip : Int := p.skip.getD 0
  let items := if skip > 0 then items.drop skip.toNat else items
  match p.limit with
  | some l => if l > 0 then items.take l.toNat else items
  | none => items

/-- `CatalogService.getCatalogItems`. -/
def getCatalogItems (st : ServiceState) (type catalogId : String)
    (options : QueryOptions) : Except DataLoadError (List StremioMeta) :=
  if st.inited = false then .error ⟨"Catalog data not initialized"⟩
  else
    match mapGet st.catalogMap (type ++ ":" ++ catalogId) with
    | none => .ok []
    | some catalog =>
        match catalog.catalog_items with
        | none => .ok []
        | some catalogItems =>
            let items := (filteredItems catalogItems
              (effectiveGenre options)).map
                (fun it => transformToStremioMeta it type)
            .ok (applyPagination (effectivePagination options) items)

/-- `CatalogService.catalogExists`: returns `false` (instead of throwing)
when uninitialized, else `Map.has` on the composite key. -/
def catalogExists (st : ServiceState) (type catalogId : String) : Bool :=
  if st.inited = false then false
  else mapHas st.catalogMap (type ++ ":" ++ catalogId)

/-! ### Claim-level characterizations

The definitions below restate parts of the specification in their own
words; theorems compare them with the embedded code. -/

/-- The genre-filter predicate exactly as the specification words it: the
`genres` sequence "contains an entry equal to the filter after trimming
whitespace and lowercasing both sides"; an item with no `genres` field
never matches.  (Note: no non-emptiness requirement on the entry.) -/
def specGenreMatchesClaim (filter : String) (item : Item) : Bool :=
  match item.genres with
  | none => false
  | some gs => gs.any (fun g => normalizeGenre g = normalizeGenre filter)

/-- The amended genre-filter predicate: the `genres` sequence contains a
*non-empty* entry equal to the filter after trimming whitespace and
lowercasing both sides. -/
def specGenreMatchesAmended (filter : String) (item : Item) : Bool :=
  match item.genres with
  | none => false
  | some gs => gs.any (fun g => g ≠ "" && normalizeGenre g = normalizeGenre filter)

/-- Keep the first occurrence of every element, dropping later duplicates:
the canonical "each distinct value exactly once, in first-seen order"
sequence. -/
def specFirstSeenDedup : List String → List String
  | [] => []
  | t :: ts => t :: specFirstSeenDedup (ts.filter (fun x => x ≠ t))
termination_by l => l.length
decreasing_by
  simp only [List.length_cons]
  exact Nat.lt_succ_of_le (List.length_filter_le _ _)

/-- The sequence of truthy `catalog_type` values of a catalog list, in
document order. -/
def typeValues (cs : List Catalog) : List String :=
  cs.filterMap
    (fun c => if truthy c.catalog_type then some (c.catalog_type.getD "") else none)

/-- The effective skip count the claim describes: a negative or non-numeric
skip is clamped to 0. -/
def effSkip (p : Pagination) : Nat := (p.skip.getD 0).toNat

/-- The effective take count the claim describes: a positive limit caps the
count, a non-numeric, negative or zero limit disables the cap (`n` is the
pre-pagination length, so taking `n` items caps nothing). -/
def effLimit (p : Pagination) (n : Nat) : Nat :=
  match p.limit with
  | some l => if 0 < l then l.toNat else n
  | none => n

/-- The filtered and transformed item sequence of one query, before
pagination. -/
def queryMetas (items : List Item) (g : Option String) (ty : String) :
    List StremioMeta :=
  (filteredItems items g).map (fun it => transformToStremioMeta it ty)

/-- The pagination contract of claim C4, about a query result `res` whose
pre-pagination sequence is `metas` and whose pagination options are `p`:
skip (clamped) drops leading items, then the limit (when positive) caps the
count; skipping past the end yields the empty sequence; and with `skip = 2`,
`limit = 3` on 10 items the result is exactly the items at 0-indexed
positions 2, 3 and 4. -/
def paginationClaim (res : Except DataLoadError (List StremioMeta))
    (metas : List StremioMeta) (p : Pagination) : Prop :=
  res = .ok ((metas.drop (effSkip p)).take (effLimit p metas.length))
  ∧ (metas.length ≤ effSkip p → res = .ok [])
  ∧ (p.skip = some 2 → p.limit = some 3 → metas.length = 10 →
      res = .ok ((metas.drop 2).take 3)
      ∧ ((metas.drop 2).take 3).length = 3
      ∧ ∀ i : Nat, i < 3 → ((metas.drop 2).take 3)[i]? = metas[2 + i]?)

/-! ### Concrete sample data (used by witnesses and counterexamples) -/

def itemDrama : Item :=
  ⟨some "tt1", some "A", some "p1", some "b1", none, none, none, none,
   some ["drama "]⟩

def itemAction : Item :=
  ⟨some "tt2", some "B", none, none, none, none, none, none, some ["Action"]⟩

def itemNoGenres : Item :=
  ⟨some "tt3", some "C", none, none, none, none, none, none, none⟩

/-- An item whose only genre entry is the empty string. -/
def itemEmptyGenre : Item :=
  ⟨some "tt9", some "E", none, none, none, none, none, none, some [""]⟩

def catTop : Catalog :=
  ⟨some "movie", some "top", some [itemDrama, itemAction, itemNoGenres]⟩

def catShows : Catalog := ⟨some "series", some "shows", some []⟩

def catMore : Catalog := ⟨some "movie", some "more", some []⟩

def catEmptyGenre : Catalog := ⟨some "movie", some "eg", some [itemEmptyGenre]⟩

def docA : CatalogDocument := ⟨[catTop, catShows, catMore, catEmptyGenre]⟩

/-- The service state after a successful load of `docA`. -/
def stA : ServiceState :=
  (loadCatalogData initState (some (ParseOutcome.good docA))).1

def mkItem (n : String) : Item :=
  ⟨some n, some n, none, none, none, none, none, none, none⟩

def items10 : List Item :=
  [mkItem "i0", mkItem "i1", mkItem "i2", mkItem "i3", mkItem "i4",
   mkItem "i5", mkItem "i6", mkItem "i7", mkItem "i8", mkItem "i9"]

def cat10 : Catalog := ⟨some "movie", some "cat10", some items10⟩

def doc10 : CatalogDocument := ⟨[cat10]⟩

/-- The service state after a successful load of `doc10`. -/
def st10 : ServiceState :=
  (loadCatalogData initState (some (ParseOutcome.good doc10))).1

/-- A document whose only catalog is missing `catalog_type`. -/
def docNoType : CatalogDocument := ⟨[⟨none, some "x", none⟩]⟩

/-- The service state after a successful load of `docNoType`. -/
def stNoType : ServiceState :=
  (loadCatalogData initState (some (ParseOutcome.good docNoType))).1

/-! ### Helper lemmas -/

theorem jsOr_empty_default (o : Option String) : jsOr o "" = o.getD "" := by
  cases o with
  | none => rfl
  | some s =>
      by_cases h : s = "" <;> simp [jsOr, h]

theorem jsOr_eq_filter_getD (o : Option String) (d : String) :
    jsOr o d = (o.filter (fun s => s ≠ "")).getD d := by
  cases o with
  | none => rfl
  | some s =>
      by_cases h : s = "" <;> simp [jsOr, Option.filter, h]

theorem truthy_ite_eq_filter (o : Option String) :
    (if truthy o then o else none) = o.filter (fun s => s ≠ "") := by
  cases o with
  | none => rfl
  | some s =>
      by_cases h : s = "" <;> simp [truthy, Option.filter, h]

/-! ### C1 -/

/-- C1: from any state reached by a successful load, a subsequent
load/reload attempt whose source fails to read, to parse, or to validate
(wrong top-level shape) leaves the reader-visible state — the raw catalog
document, the lookup map and the initialized flag — exactly as it was; the
index is never observable partially built. -/
theorem failedReload_preserves_state
    (st₀ st : ServiceState) (d : CatalogDocument)
    (hload : loadCatalogData st₀ (some (ParseOutcome.good d)) = (st, none))
    (src : Option ParseOutcome)
    (hfail : src = none ∨ src = some ParseOutcome.readError ∨
      src = some ParseOutcome.badShape) :
    (loadCatalogData st src).1 = st := by
  rcases hfail with h | h | h <;> subst h <;> rfl

/-- Witness for C1 at a concrete loaded state and a read failure. -/
theorem failedReload_preserves_state_witness :
    (loadCatalogData stA (some ParseOutcome.readError)).1 = stA :=
  failedReload_preserves_state initState stA docA (by decide)
    (some ParseOutcome.readError) (Or.inr (Or.inl rfl))

/-! ### C3 -/

/-- Counterexample for C3: at a concrete state with a previous successful
load, a failed reload does propagate an error to the caller
(`loadCatalogData` rethrows a `DataLoadError`), contrary to the claim that
the failure is only recorded as a diagnostic and the call completes. -/
theorem failedReload_error_propagates_cex :
    stA.inited = true ∧
    (loadCatalogData stA (some ParseOutcome.readError)).2 ≠ none := by
  decide

/-- C3 (amended): for every state with a previous successful load, a failed
reload raises a `DataLoadError` to the caller; the retained state is
unchanged, so the system continues to serve the old data through its
accessors. -/
theorem failedReload_error_propagates
    (st : ServiceState) (hprev : st.inited = true)
    (src : Option ParseOutcome)
    (hfail : src = none ∨ src = some ParseOutcome.readError ∨
      src = some ParseOutcome.badShape) :
    ((loadCatalogData st src).2).isSome = true ∧
    (loadCatalogData st src).1 = st := by
  rcases hfail with h | h | h <;> subst h <;> exact ⟨rfl, rfl⟩

/-- Witness for the amended C3 at a concrete loaded state and a source with
the wrong top-level shape. -/
theorem failedReload_error_propagates_witness :
    ((loadCatalogData stA (some ParseOutcome.badShape)).2).isSome = true ∧
    (loadCatalogData stA (some ParseOutcome.badShape)).1 = stA :=
  failedReload_error_propagates stA (by decide)
    (some ParseOutcome.badShape) (Or.inr (Or.inr rfl))

/-! ### C6 -/

/-- C6: the Item-to-Meta transformation yields `id` equal to the item's id
(empty string if missing), `type` equal to the requested type, `name`
defaulting to `"Unknown"` when missing/empty; `banner` is renamed to
`background`; `poster`, `description`, `releaseInfo`, `runtime` and
`imdbRating` are copied exactly when present and truthy, and every field
absent or falsy on the source item is omitted (`none`) in the result. -/
theorem meta_transformation_fields (item : Item) (ty : String) :
    (transformToStremioMeta item ty).id = item.id.getD ""
    ∧ (transformToStremioMeta item ty).type = ty
    ∧ (transformToStremioMeta item ty).name
        = (item.name.filter (fun s => s ≠ "")).getD "Unknown"
    ∧ (transformToStremioMeta item ty).poster
        = item.poster.filter (fun s => s ≠ "")
    ∧ (transformToStremioMeta item ty).background
        = item.banner.filter (fun s => s ≠ "")
    ∧ (transformToStremioMeta item ty).description
        = item.description.filter (fun s => s ≠ "")
    ∧ (transformToStremioMeta item ty).releaseInfo
        = item.releaseInfo.filter (fun s => s ≠ "")
    ∧ (transformToStremioMeta item ty).runtime
        = item.runtime.filter (fun s => s ≠ "")
    ∧ (transformToStremioMeta item ty).imdbRating
        = item.imdbRating.filter (fun s => s ≠ "") :=
  ⟨jsOr_empty_default item.id, rfl, jsOr_eq_filter_getD item.name "Unknown",
   truthy_ite_eq_filter item.poster, truthy_ite_eq_filter item.banner,
   truthy_ite_eq_filter item.description,
   truthy_ite_eq_filter item.releaseInfo, truthy_ite_eq_filter item.runtime,
   truthy_ite_eq_filter item.imdbRating⟩

/-! ### C7 -/

/-- C7: on an initialized index, a query for a `(type, catalogId)` pair that
is not in the lookup map, or whose catalog has no items sequence, returns an
empty sequence and never an error. -/
theorem unknown_catalog_empty (st : ServiceState) (ty id : String)
    (opts : QueryOptions) (hinit : st.inited = true)
    (h : mapGet st.catalogMap (ty ++ ":" ++ id) = none
      ∨ ∃ c, mapGet st.catalogMap (ty ++ ":" ++ id) = some c
          ∧ c.catalog_items = none) :
    getCatalogItems st ty id opts = .ok [] := by
  rcases h with h | ⟨c, hc, hi⟩ <;>
    simp [getCatalogItems, hinit, *]

/-- Witness for C7: a concrete query against a key absent from the map. -/
theorem unknown_catalog_empty_witness :
    getCatalogItems stA "movie" "nonexistent" ⟨none, none, none, none⟩
      = .ok [] :=
  unknown_catalog_empty stA "movie" "nonexistent" ⟨none, none, none, none⟩
    (by decide) (Or.inl (by decide))

/-! ### C10 -/

/-- C10: `catalogExists` is a total boolean function — called before any
successful load it returns `false`, unlike `getAllCatalogs`,
`getSupportedTypes` and `getCatalogItems`, which all fail with a
`DataLoadError` when uninitialized; on an initialized state it returns
exactly whether the composite key is present in the lookup map. -/
theorem catalogExists_never_errors (st : ServiceState) (ty id : String) :
    (st.inited = false →
      catalogExists st ty id = false
      ∧ (getAllCatalogs st).isOk = false
      ∧ (getSupportedTypes st).isOk = false
      ∧ ∀ opts, (getCatalogItems st ty id opts).isOk = false)
    ∧ (st.inited = true →
      catalogExists st ty id = mapHas st.catalogMap (ty ++ ":" ++ id)) := by
  constructor
  · intro h
    refine ⟨?_, ?_, ?_, ?_⟩
    · simp [catalogExists, h]
    · cases hc : st.catalogData <;>
        simp [getAllCatalogs, h, hc, Except.isOk, Except.toBool]
    · cases hc : st.catalogData <;>
        simp [getSupportedTypes, h, hc, Except.isOk, Except.toBool]
    · intro opts
      simp [getCatalogItems, h, Except.isOk, Except.toBool]
  · intro h
    simp [catalogExists, h]

/-- Witness for C10 at the freshly constructed (uninitialized) state. -/
theorem catalogExists_never_errors_witness :
    (initState.inited = false →
      catalogExists initState "movie" "top" = false
      ∧ (getAllCatalogs initState).isOk = false
      ∧ (getSupportedTypes initState).isOk = false
      ∧ ∀ opts, (getCatalogItems initState "movie" "top" opts).isOk = false)
    ∧ (initState.inited = true →
      catalogExists initState "movie" "top"
        = mapHas initState.catalogMap ("movie" ++ ":" ++ "top")) :=
  catalogExists_never_errors initState "movie" "top"

/-! ### C9 -/

/-- C9: when the options object's `pagination` field is not an object (the
legacy flat `{skip, limit}` shape, even with a `genre` field present), the
genre filter is treated as absent: the result is identical to the same
query with no genre, and on a found catalog it is the unfiltered
(transformed, paginated) item sequence. -/
theorem legacy_options_ignore_genre (st : ServiceState) (ty id : String)
    (opts : QueryOptions) (hp : opts.pagination = none) :
    getCatalogItems st ty id opts
      = getCatalogItems st ty id ⟨none, none, opts.skip, opts.limit⟩
    ∧ ∀ (catalog : Catalog) (items : List Item),
        st.inited = true →
        mapGet st.catalogMap (ty ++ ":" ++ id) = some catalog →
        catalog.catalog_items = some items →
        getCatalogItems st ty id opts
          = .ok (applyPagination ⟨opts.skip, opts.limit⟩
              (items.map (fun it => transformToStremioMeta it ty))) := by
  constructor
  · simp [getCatalogItems, effectiveGenre, effectivePagination, hp]
  · intro catalog items hinit hget hitems
    simp [getCatalogItems, effectiveGenre, effectivePagination, filteredItems,
      hp, hinit, hget, hitems]

/-- Witness for C9: a legacy-shaped options object that carries a `genre`
field; the genre is ignored. -/
theorem legacy_options_ignore_genre_witness :
    getCatalogItems stA "movie" "top" ⟨none, some "Drama", some 1, none⟩
      = getCatalogItems stA "movie" "top" ⟨none, none, some 1, none⟩
    ∧ ∀ (catalog : Catalog) (items : List Item),
        stA.inited = true →
        mapGet stA.catalogMap ("movie" ++ ":" ++ "top") = some catalog →
        catalog.catalog_items = some items →
        getCatalogItems stA "movie" "top" ⟨none, some "Drama", some 1, none⟩
          = .ok (applyPagination ⟨some 1, none⟩
              (items.map (fun it => transformToStremioMeta it "movie"))) :=
  legacy_options_ignore_genre stA "movie" "top"
    ⟨none, some "Drama", some 1, none⟩ rfl

/-! ### C5 -/

/-- Counterexample for C5: with the whitespace-only (non-empty) filter
`" "` on a catalog whose item is tagged `[""]`, the code drops the item
(empty genre entries are falsy and never compared), while the claim's
predicate — an entry equal to the filter after trimming and lowercasing
both sides — keeps it, since both normalize to `""`. -/
theorem genre_filter_claim_cex :
    getCatalogItems stA "movie" "eg" ⟨some ⟨none, none⟩, some " ", none, none⟩
      = .ok []
    ∧ ([itemEmptyGenre].filter (specGenreMatchesClaim " ")).map
        (fun it => transformToStremioMeta it "movie") ≠ [] := by
  decide

/-- C5 (amended): for a non-empty genre filter, the query keeps exactly the
items whose `genres` sequence contains a *non-empty* entry equal to the
filter after trimming whitespace and lowercasing both sides, preserving
relative order; an item with no `genres` field never matches. -/
theorem genre_filter_trim_lower (st : ServiceState) (ty id g : String)
    (sk li : Option Int) (catalog : Catalog) (items : List Item)
    (hg : g ≠ "")
    (hinit : st.inited = true)
    (hget : mapGet st.catalogMap (ty ++ ":" ++ id) = some catalog)
    (hitems : catalog.catalog_items = some items) :
    getCatalogItems st ty id ⟨some ⟨none, none⟩, some g, sk, li⟩
      = .ok ((items.filter (specGenreMatchesAmended g)).map
          (fun it => transformToStremioMeta it ty))
    ∧ (∀ (it : Item) (gs : List String), it.genres = some gs →
        (specGenreMatchesAmended g it = true ↔
          ∃ x ∈ gs, x ≠ "" ∧ normalizeGenre x = normalizeGenre g))
    ∧ ∀ it : Item, it.genres = none → specGenreMatchesAmended g it = false := by
  refine ⟨?_, ?_, ?_⟩
  · have hmatch : genreMatches (normalizeGenre g) = specGenreMatchesAmended g := rfl
    simp [getCatalogItems, effectiveGenre, effectivePagination, filteredItems,
      applyPagination, hg, hinit, hget, hitems, hmatch]
  · intro it gs hgs
    simp [specGenreMatchesAmended, hgs, List.any_eq_true]
  · intro it hnone
    simp [specGenreMatchesAmended, hnone]

/-- Witness for the amended C5: filtering `"Drama"` on the `movie:top`
catalog keeps exactly the item tagged `["drama "]`. -/
theorem genre_filter_trim_lower_witness :
    getCatalogItems stA "movie" "top"
        ⟨some ⟨none, none⟩, some "Drama", none, none⟩
      = .ok (([itemDrama, itemAction, itemNoGenres].filter
          (specGenreMatchesAmended "Drama")).map
          (fun it => transformToStremioMeta it "movie"))
    ∧ (∀ (it : Item) (gs : List String), it.genres = some gs →
        (specGenreMatchesAmended "Drama" it = true ↔
          ∃ x ∈ gs, x ≠ "" ∧ normalizeGenre x = normalizeGenre "Drama"))
    ∧ ∀ it : Item, it.genres = none →
        specGenreMatchesAmended "Drama" it = false :=
  genre_filter_trim_lower stA "movie" "top" "Drama" none none catTop
    [itemDrama, itemAction, itemNoGenres] (by decide) (by decide) (by decide)
    (by decide)

/-! ### C4 -/

theorem applyPagination_eq (p : Pagination) (l : List StremioMeta) :
    applyPagination p l = (l.drop (effSkip p)).take (effLimit p l.length) := by
  have hdrop : (if p.skip.getD 0 > 0 then l.drop (p.skip.getD 0).toNat else l)
      = l.drop (effSkip p) := by
    by_cases h : p.skip.getD 0 > 0
    · rw [if_pos h]; rfl
    · rw [if_neg h]
      unfold effSkip
      rw [Int.toNat_of_nonpos (le_of_not_lt h), List.drop_zero]
  simp only [applyPagination, hdrop]
  cases hl : p.limit with
  | none =>
      unfold effLimit
      rw [hl]
      exact (List.take_of_length_le (by simp [Nat.sub_le])).symm
  | some li =>
      unfold effLimit
      rw [hl]
      dsimp only
      by_cases h0 : li > 0
      · rw [if_pos h0, if_pos h0]
      · rw [if_neg h0, if_neg h0]
        exact (List.take_of_length_le (by simp [Nat.sub_le])).symm

theorem paginationClaim_ok (p : Pagination) (metas : List StremioMeta) :
    paginationClaim (.ok (applyPagination p metas)) metas p := by
  refine ⟨?_, ?_, ?_⟩
  · rw [applyPagination_eq]
  · intro hle
    rw [applyPagination_eq, List.drop_of_length_le hle, List.take_nil]
  · intro hs hl hlen
    have e1 : effSkip p = 2 := by simp [effSkip, hs]
    have e2 : effLimit p metas.length = 3 := by simp [effLimit, hl]
    refine ⟨?_, ?_, ?_⟩
    · rw [applyPagination_eq, e1, e2]
    · rw [List.length_take, List.length_drop, hlen]
      omega
    · intro i hi
      rw [List.getElem?_take_of_lt hi, List.getElem?_drop]

/-- C4: pagination is applied after filtering and transformation, skip
before limit — a negative or non-numeric skip is clamped to 0, skip drops
that many leading items (an empty sequence results when skip reaches past
the end), and a limit caps the count only when positive (a non-numeric,
negative or zero limit disables the cap); with `skip = 2`, `limit = 3` on a
10-item sequence the result is the items at 0-indexed positions 2, 3, 4. -/
theorem pagination_skip_then_limit (st : ServiceState) (ty id : String)
    (opts : QueryOptions) (catalog : Catalog) (items : List Item)
    (hinit : st.inited = true)
    (hget : mapGet st.catalogMap (ty ++ ":" ++ id) = some catalog)
    (hitems : catalog.catalog_items = some items) :
    paginationClaim (getCatalogItems st ty id opts)
      (queryMetas items (effectiveGenre opts) ty)
      (effectivePagination opts) := by
  have hq : getCatalogItems st ty id opts
      = .ok (applyPagination (effectivePagination opts)
          (queryMetas items (effectiveGenre opts) ty)) := by
    simp [getCatalogItems, queryMetas, hinit, hget, hitems]
  rw [hq]
  exact paginationClaim_ok _ _

/-- Witness for C4: `skip = 2`, `limit = 3` on the concrete 10-item
catalog. -/
theorem pagination_skip_then_limit_witness :
    paginationClaim
      (getCatalogItems st10 "movie" "cat10"
        ⟨some ⟨some 2, some 3⟩, none, none, none⟩)
      (queryMetas items10
        (effectiveGenre ⟨some ⟨some 2, some 3⟩, none, none, none⟩) "movie")
      (effectivePagination ⟨some ⟨some 2, some 3⟩, none, none, none⟩) :=
  pagination_skip_then_limit st10 "movie" "cat10"
    ⟨some ⟨some 2, some 3⟩, none, none, none⟩ cat10 items10
    (by decide) (by decide) (by decide)

/-! ### C2 -/

theorem mem_mapSet (m : List (String × Catalog)) (k : String) (v : Catalog)
    (p : String × Catalog) (hp : p ∈ mapSet m k v) : p ∈ m ∨ p = (k, v) := by
  unfold mapSet at hp
  split at hp
  · obtain ⟨q, hq, he⟩ := List.mem_map.1 hp
    by_cases h : q.1 = k
    · right; rw [← he]; simp [h]
    · left; rw [← he]; simp [h]; exact hq
  · rcases List.mem_append.1 hp with h | h
    · exact Or.inl h
    · right; simpa using h

theorem buildFold_values (cs : List Catalog) (m : List (String × Catalog))
    (hm : ∀ p ∈ m, truthy p.2.catalog_type = true ∧ truthy p.2.catalog_name = true) :
    ∀ p ∈ cs.foldl
        (fun m c => if truthy c.catalog_type && truthy c.catalog_name then
          mapSet m (catalogKey c) c else m) m,
      truthy p.2.catalog_type = true ∧ truthy p.2.catalog_name = true := by
  induction cs generalizing m with
  | nil => exact hm
  | cons c cs ih =>
      intro p hp
      rw [List.foldl_cons] at hp
      refine ih _ ?_ p hp
      intro q hq
      by_cases h : (truthy c.catalog_type && truthy c.catalog_name) = true
      · rw [if_pos h] at hq
        rcases mem_mapSet _ _ _ _ hq with h' | h'
        · exact hm q h'
        · rw [h']
          exact Bool.and_eq_true_iff.1 h
      · rw [if_neg h] at hq
        exact hm q hq

/-- Counterexample for C2: on a loaded document whose single catalog is
missing `catalog_type`, `getAllCatalogs` returns one entry while the count
of catalogs with both fields set is zero — the code does not exclude such
catalogs from `getAllCatalogs`. -/
theorem getAllCatalogs_excludes_cex :
    (getAllCatalogs stNoType).toOption.map List.length
      ≠ some ((docNoType.catalogs.filter
          (fun c => truthy c.catalog_type && truthy c.catalog_name)).length) := by
  decide

/-- C2 (amended): for every well-formed loaded document, `getAllCatalogs`
returns one entry per input catalog — its length is the total catalog
count; catalogs missing `catalog_type` or `catalog_name` are excluded from
the lookup map (every catalog stored in the map has both fields set), not
from `getAllCatalogs`. -/
theorem getAllCatalogs_length_eq_total (d : CatalogDocument) :
    ∃ r, getAllCatalogs
        (loadCatalogData initState (some (ParseOutcome.good d))).1 = .ok r
      ∧ r.length = d.catalogs.length
      ∧ ∀ (k : String) (c : Catalog),
          mapGet ((loadCatalogData initState
              (some (ParseOutcome.good d))).1).catalogMap k = some c →
          truthy c.catalog_type = true ∧ truthy c.catalog_name = true := by
  refine ⟨_, rfl, List.length_map _ _, ?_⟩
  intro k c hc
  have hstate : ((loadCatalogData initState
      (some (ParseOutcome.good d))).1).catalogMap
      = d.catalogs.foldl
          (fun m c => if truthy c.catalog_type && truthy c.catalog_name then
            mapSet m (catalogKey c) c else m) [] := rfl
  rw [hstate] at hc
  unfold mapGet at hc
  obtain ⟨p, hfind, hval⟩ := Option.map_eq_some'.1 hc
  have hmem := List.mem_of_find?_eq_some hfind
  have hinv := buildFold_values d.catalogs []
    (by intro q hq; cases hq) p hmem
  rw [hval] at hinv
  exact hinv

/-! ### C8 -/

theorem mem_specFirstSeenDedup (l : List String) (a : String) :
    a ∈ specFirstSeenDedup l ↔ a ∈ l := by
  induction l using specFirstSeenDedup.induct with
  | case1 => simp [specFirstSeenDedup]
  | case2 t ts ih =>
      rw [specFirstSeenDedup, List.mem_cons, ih, List.mem_filter]
      by_cases hat : a = t <;> simp [hat]

theorem nodup_specFirstSeenDedup (l : List String) :
    (specFirstSeenDedup l).Nodup := by
  induction l using specFirstSeenDedup.induct with
  | case1 => simp [specFirstSeenDedup]
  | case2 t ts ih =>
      rw [specFirstSeenDedup]
      refine List.nodup_cons.2 ⟨?_, ih⟩
      intro hmem
      rw [mem_specFirstSeenDedup] at hmem
      simp at hmem

theorem foldl_addType_eq (l : List String) (acc : List String) :
    l.foldl addType acc
      = acc ++ specFirstSeenDedup (l.filter (fun t => t ∉ acc)) := by
  induction l generalizing acc with
  | nil => simp [specFirstSeenDedup]
  | cons t ts ih =>
      rw [List.foldl_cons]
      by_cases h : t ∈ acc
      · have ha : addType acc t = acc := by simp [addType, h]
        have hfil : (t :: ts).filter (fun x => x ∉ acc)
            = ts.filter (fun x => x ∉ acc) := by
          simp [List.filter_cons, h]
        rw [ha, ih, hfil]
      · have ha : addType acc t = acc ++ [t] := by simp [addType, h]
        have hfil : (t :: ts).filter (fun x => x ∉ acc)
            = t :: ts.filter (fun x => x ∉ acc) := by
          simp [List.filter_cons, h]
        rw [ha, ih, hfil, specFirstSeenDedup, List.filter_filter]
        have hpred : ts.filter (fun x => x ∉ acc ++ [t])
            = ts.filter (fun x => decide (x ≠ t) && decide (x ∉ acc)) := by
          apply List.filter_congr
          intro x _
          by_cases h1 : x ∈ acc <;> by_cases h2 : x = t <;>
            simp [h1, h2, List.mem_append]
        rw [hpred]
        simp [List.append_assoc]

theorem foldl_types_eq (cs : List Catalog) (acc : List String) :
    cs.foldl (fun acc c => if truthy c.catalog_type then
        addType acc (c.catalog_type.getD "") else acc) acc
      = (typeValues cs).foldl addType acc := by
  induction cs generalizing acc with
  | nil => rfl
  | cons c cs ih =>
      cases h : truthy c.catalog_type <;>
        simp [typeValues, List.filterMap_cons, h, ih]

/-- C8: on a well-formed loaded document, `getSupportedTypes` is exactly
the first-seen deduplication of the sequence of (truthy) `catalog_type`
values in document order: it contains each distinct value exactly once, in
first-seen order, regardless of how many catalogs share a type. -/
theorem supported_types_first_seen (st : ServiceState) (d : CatalogDocument)
    (hd : st.catalogData = some d) (hinit : st.inited = true) :
    getSupportedTypes st = .ok (specFirstSeenDedup (typeValues d.catalogs))
    ∧ (∀ t, t ∈ specFirstSeenDedup (typeValues d.catalogs)
        ↔ t ∈ typeValues d.catalogs)
    ∧ (specFirstSeenDedup (typeValues d.catalogs)).Nodup
    ∧ ∀ t ∈ typeValues d.catalogs,
        (specFirstSeenDedup (typeValues d.catalogs)).count t = 1 := by
  refine ⟨?_, fun t => mem_specFirstSeenDedup _ t,
    nodup_specFirstSeenDedup _, ?_⟩
  · obtain ⟨cd, cm, i⟩ := st
    cases hd
    cases hinit
    show Except.ok _ = _
    rw [foldl_types_eq, foldl_addType_eq]
    have hfil : (typeValues d.catalogs).filter
        (fun t => t ∉ ([] : List String)) = typeValues d.catalogs :=
      List.filter_eq_self.2 (by intro a _; simp)
    rw [hfil, List.nil_append]
  · intro t ht
    exact List.count_eq_one_of_mem (nodup_specFirstSeenDedup _)
      ((mem_specFirstSeenDedup _ t).2 ht)

/-- Witness for C8 on the concrete document `docA`, whose catalogs have
types `movie, series, movie, movie`. -/
theorem supported_types_first_seen_witness :
    getSupportedTypes stA = .ok (specFirstSeenDedup (typeValues docA.catalogs))
    ∧ (∀ t, t ∈ specFirstSeenDedup (typeValues docA.catalogs)
        ↔ t ∈ typeValues docA.catalogs)
    ∧ (specFirstSeenDedup (typeValues docA.catalogs)).Nodup
    ∧ ∀ t ∈ typeValues docA.catalogs,
        (specFirstSeenDedup (typeValues docA.catalogs)).count t = 1 :=
  supported_types_first_seen stA docA (by decide) (by decide)

end Rkp
